import Mathlib

/-!
Verification of the BookBot floating chat widget (src/static/bookbot-widget.js).

The JavaScript file is shallowly embedded: JSON payloads become the
inductive type JSValue with JavaScript truthiness and property-access
semantics (a property access on null/undefined, or calling .map on a
non-array, raises a TypeError, modelled by Except.error); strings are
Lean String values; the DOM transcript is a list of rows; the panel,
its persisted geometry and the localStorage slot form a World record on
which the widget operations act as pure state transformers.
-/

/-- A JavaScript value, as far as the widget inspects payloads:
null, undefined, booleans, numbers (the payload quantities are
integers), strings, arrays and objects (association lists). -/
inductive JSValue where
  | null
  | undefined
  | bool (b : Bool)
  | num (n : Int)
  | str (s : String)
  | arr (xs : List JSValue)
  | obj (fields : List (String × JSValue))

/-- JavaScript truthiness: null, undefined, false, 0 and "" are falsy;
every array and object is truthy. -/
def truthy : JSValue → Bool
  | .null => false
  | .undefined => false
  | .bool b => b
  | .num n => n != 0
  | .str s => s != ""
  | .arr _ => true
  | .obj _ => true

/-- Association-list lookup for object fields; an absent key reads as
undefined, like a JavaScript property access on an object. -/
def lookupField : List (String × JSValue) → String → JSValue
  | [], _ => .undefined
  | (k, v) :: rest, key => if k = key then v else lookupField rest key

/-- Guarded property access `v.key` for a value already known not to be
null/undefined (the widget always checks truthiness first on the payload
root): objects look the key up, primitives and arrays yield undefined. -/
def getF : JSValue → String → JSValue
  | .obj fs, key => lookupField fs key
  | _, _ => .undefined

/-- `a || b` of JavaScript: the left operand when truthy, else the right. -/
def jsOr (a b : JSValue) : JSValue := if truthy a then a else b

/-- Strict comparison `v === false` used by the in_stock check. -/
def jsIsFalse : JSValue → Bool
  | .bool false => true
  | _ => false

/-- `typeof v === "number"` used by the qty check. -/
def JSValue.isNum : JSValue → Bool
  | .num _ => true
  | _ => false

/-- `Array.isArray(v)`. -/
def JSValue.isArray : JSValue → Bool
  | .arr _ => true
  | _ => false

mutual

/-- JavaScript String(v) coercion, applied by escapeHtml to whatever it
receives: arrays join their elements with commas, objects print as
"[object Object]". -/
def jstr : JSValue → String
  | .null => "null"
  | .undefined => "undefined"
  | .bool b => if b then "true" else "false"
  | .num n => toString n
  | .str s => s
  | .arr xs => String.intercalate "," (jstrList xs)
  | .obj _ => "[object Object]"

def jstrList : List JSValue → List String
  | [] => []
  | x :: xs => jstr x :: jstrList xs

end

/-- `v.map(...)` of JavaScript: succeeds only on arrays, a truthy
non-array raises a TypeError. -/
def asArrE : JSValue → Except Unit (List JSValue)
  | .arr xs => .ok xs
  | _ => .error ()

/-- Per-character HTML escaping table of escapeHtml
(source lines 94-100): the five markup-significant characters map to
their entities, every other character is kept. -/
def escapeChar (c : Char) : List Char :=
  if c = '&' then "&amp;".data
  else if c = '<' then "&lt;".data
  else if c = '>' then "&gt;".data
  else if c = '"' then "&quot;".data
  else if c = '\x27' then "&#39;".data
  else [c]

/-- escapeHtml over the character list of the string. -/
def escapeList : List Char → List Char
  | [] => []
  | c :: cs => escapeChar c ++ escapeList cs

/-- `escapeHtml(s)` (source line 94): `String(s).replace(/[&<>"']/g, ...)`. -/
def escapeHtml (s : String) : String := ⟨escapeList s.data⟩

/-- One character of the `.replace(/\n/g, "<br/>")` step of appendYou. -/
def brChar (c : Char) : List Char :=
  if c = '\n' then "<br/>".data else [c]

/-- newline-to-break over a character list. -/
def brList : List Char → List Char
  | [] => []
  | c :: cs => brChar c ++ brList cs

/-- `s.replace(/\n/g, "<br/>")`. -/
def nlToBr (s : String) : String := ⟨brList s.data⟩

/-- The bubble markup appended by `appendYou` (source line 312):
escape, then convert newlines to line breaks. -/
def appendYouHtml (t : String) : String := nlToBr (escapeHtml t)

/-- Number of occurrences of a character in a string. -/
def countChar (c : Char) (s : String) : Nat := s.data.count c

/-- True when a string contains none of the four raw markup-significant
characters a field could use to inject markup. -/
def safeChar (c : Char) : Bool :=
  !(c == '<' || c == '>' || c == '"' || c == '\x27')

/-- A string is markup-safe when every character is. -/
def isMarkupSafe (s : String) : Bool := s.data.all safeChar

/-- JavaScript String.prototype.trim: strip whitespace from both ends.
Used by onSend on the input value (source line 351). -/
def jsTrim (s : String) : String :=
  ⟨((s.data.dropWhile Char.isWhitespace).reverse.dropWhile Char.isWhitespace).reverse⟩

/-- The fixed fallback bot message of shape 4 (source line 345). -/
def fallbackMsg : String := "Mình chưa rõ nhu cầu, bạn mô tả chi tiết hơn nhé!"

/-- The fixed server-error bot message (source line 370). -/
def serverErrMsg : String := "Máy chủ báo lỗi. Bạn thử lại sau nhé."

/-- The fixed network-error bot message (source line 375). -/
def networkErrMsg : String := "Có lỗi mạng/API. Thử lại sau nhé."

/-- One recommendation list item of shape 1 (source line 327): the title
is accessed unguarded, so a null/undefined entry raises a TypeError;
author falls back to "N/A", reason to the empty string, and the
out-of-stock marker appears only when in_stock is strictly false. -/
def renderRec (x : JSValue) : Except Unit String :=
  match x with
  | .null => .error ()
  | .undefined => .error ()
  | _ => .ok (String.join ["<li><b>", escapeHtml (jstr (getF x "title")), "</b> — ",
      escapeHtml (jstr (jsOr (getF x "author") (.str "N/A"))), "<br><i>",
      escapeHtml (jstr (jsOr (getF x "reason") (.str ""))), "</i>",
      if jsIsFalse (getF x "in_stock") then " <span style=\"color:#b00\">(ngoài kho)</span>" else "",
      "</li>"])

/-- One book line of shape 3 (source line 342); the entry's fields are
accessed unguarded, so a null/undefined entry raises a TypeError. -/
def renderBook (b : JSValue) : Except Unit String :=
  match b with
  | .null => .error ()
  | .undefined => .error ()
  | _ => .ok (String.join ["• <b>", escapeHtml (jstr (getF b "title")), "</b> — ",
      escapeHtml (jstr (getF b "author")), " (còn ", jstr (getF b "qty"), ")"])

/-- Shape 1 (source lines 325-330): an ordered list of recommendations
plus an optional follow-up block. -/
def renderShape1 (xs : List JSValue) (followUp : JSValue) : Except Unit String := do
  let items ← xs.mapM renderRec
  let follow :=
    if truthy followUp then
      String.join ["<div style=\"margin-top:6px\"><b>Hỏi thêm:</b> ",
        escapeHtml (jstr followUp), "</div>"]
    else ""
  pure (String.join ["<ul>", String.join items, "</ul>", follow])

/-- Shape 2 (source lines 331-340): title/author line with optional
quantity suffix and a bullet list; a truthy non-array bullets value
raises when mapped over. The template literal's whitespace is kept. -/
def renderShape2 (s : JSValue) : Except Unit String := do
  let bulletVals ← asArrE (jsOr (getF s "bullets") (.arr []))
  let bullets := String.join (bulletVals.map
    (fun x => String.join ["<li>", escapeHtml (jstr x), "</li>"]))
  let stock :=
    if (getF s "qty").isNum then
      String.join [" <span style=\"color:#555\">(còn ", jstr (getF s "qty"), ")</span>"]
    else ""
  pure (String.join ["\n      <div>\n        <div><b>",
    escapeHtml (jstr (jsOr (getF s "title") (.str "N/A"))), "</b> — ",
    escapeHtml (jstr (jsOr (getF s "author") (.str "N/A"))), stock,
    "</div>\n        <ul style=\"margin:6px 0 0 18px\">", bullets,
    "</ul>\n      </div>\n    "])

/-- Shape 3 (source lines 341-343): the answer text followed by one line
per book, the whole block omitted when the joined book lines are empty;
a truthy non-array books value raises when mapped over. -/
def renderShape3 (data : JSValue) : Except Unit String := do
  let bookVals ← asArrE (jsOr (getF data "books") (.arr []))
  let lines ← bookVals.mapM renderBook
  let books := String.intercalate "<br/>" lines
  pure (String.join [escapeHtml (jstr (getF data "answer")),
    if books = "" then ""
    else String.join ["<div style=\x27margin-top:6px\x27>", books, "</div>"]])

/-- Shape 4 (source line 345): the escaped raw field when the payload and
its raw field are truthy, else the fixed fallback message. -/
def renderFallback (data : JSValue) : Except Unit String :=
  .ok (if truthy data && truthy (getF data "raw")
    then escapeHtml (jstr (getF data "raw")) else fallbackMsg)

/-- `renderBot(data)` (source lines 324-347): the four payload shapes are
tried in the fixed order recommendations, summary, answer, fallback, and
only the first matching shape produces the appended markup. -/
def renderBot (data : JSValue) : Except Unit String :=
  if truthy data then
    match getF data "recommendations" with
    | .arr xs => renderShape1 xs (getF data "follow_up")
    | _ =>
      if truthy (getF data "summary") then
        renderShape2 (jsOr (getF data "summary") (.obj []))
      else if truthy (getF data "answer") then renderShape3 data
      else renderFallback data
  else renderFallback data

/-- A transcript row: its role class, its bubble markup, and whether it
is the transient typing-placeholder node handle returned by showTyping
(node identity stands in for the DOM element the dispatcher removes). -/
structure Row where
  role : String
  html : String
  isTypingRow : Bool
deriving DecidableEq

/-- The row appended by `appendYou` (source line 312). -/
def youRow (t : String) : Row := ⟨"you", appendYouHtml t, false⟩

/-- The row appended by `appendBot` (source line 313). -/
def botRow (h : String) : Row := ⟨"bot", h, false⟩

/-- The transient row appended by `showTyping` (source lines 315-322). -/
def typingRow : Row := ⟨"bot", "<i>Đang soạn gợi ý…</i>", true⟩

/-- Number of typing-placeholder rows present in the transcript. -/
def countTyping (l : List Row) : Nat := (l.filter (fun r => r.isTypingRow)).length

/-- The state of the dispatcher's user interface: the transcript rows,
the content of the text input, the disabled flag of the send button, and
whether the input holds focus. -/
structure UIState where
  log : List Row
  inputValue : String
  sendDisabled : Bool
  focused : Bool
deriving DecidableEq

/-- How the one network call of a send cycle settles: the fetch promise
rejects, or a response arrives with an ok flag and a body that either
parses to a JSON value or fails to parse. -/
inductive FetchOutcome where
  | reject
  | resp (ok : Bool) (body : Option JSValue)

/-- `onSend` (source lines 350-381) as a function from the pre-send UI
state and the settled network outcome to the post-cycle UI state. With
empty trimmed input nothing happens. Otherwise the user row is echoed,
the input cleared, the send button disabled and the typing row shown;
the try block then appends exactly one bot row (server-error markup on a
non-ok status, the renderBot markup on success — a parse failure leaves
data null, so an empty object is rendered — and network-error markup
when fetch rejects or renderBot raises, both landing in the catch
block); the finally block removes the typing node inserted above,
re-enables the send button and focuses the input. -/
def onSend (ui : UIState) (outcome : FetchOutcome) : UIState :=
  let text := jsTrim ui.inputValue
  if text = "" then ui
  else
    let msg : String :=
      match outcome with
      | .reject => networkErrMsg
      | .resp ok body =>
          let data := match body with
            | some v => v
            | none => JSValue.null
          if ok then
            match renderBot (jsOr data (.obj [])) with
            | .ok html => html
            | .error _ => networkErrMsg
          else serverErrMsg
    { log := (ui.log ++ [youRow text, typingRow, botRow msg]).eraseIdx (ui.log.length + 1),
      inputValue := "", sendDisabled := false, focused := true }

/-- The scroll geometry of the log region plus the stick-to-bottom flag
(source lines 86 and 156-159). -/
structure LogView where
  scrollTop : Int
  scrollHeight : Int
  clientHeight : Int
  stickBottom : Bool
deriving DecidableEq

/-- The scroll listener of the log region (source lines 156-159):
stickBottom becomes true exactly when the scroll position is within 4px
of the bottom. -/
def onLogScroll (l : LogView) : LogView :=
  { l with stickBottom := decide (l.scrollHeight - l.clientHeight - 4 ≤ l.scrollTop) }

/-- The scroll effect of one appended row (source lines 304-310, and the
identical lines of showTyping): the content grows, and when stickBottom
holds the scroll position is set to the bottom (the browser clamps the
assigned scrollHeight to scrollHeight - clientHeight, at least 0). -/
def appendScroll (l : LogView) (rowHeight : Int) : LogView :=
  let l1 := { l with scrollHeight := l.scrollHeight + rowHeight }
  if l1.stickBottom then
    { l1 with scrollTop := max 0 (l1.scrollHeight - l1.clientHeight) }
  else l1

/-- The persisted panel state (source line 79): the open flag (`open` in
the source, renamed because `open` is a Lean keyword), the dragged
position (null until the first drag or setPosition settles one), and the
panel dimensions. -/
structure PanelState where
  openFlag : Bool
  x : Option Int
  y : Option Int
  w : Int
  h : Int
deriving DecidableEq

/-- The literal the state is initialised with (source line 79). -/
def defaultState : PanelState := ⟨false, none, none, 360, 520⟩

/-- The localStorage slot under the widget's key: absent, holding
undecodable text, or holding one JSON-serialised PanelState record (the
only thing saveState ever writes). -/
inductive Storage where
  | absent
  | corrupt
  | record (s : PanelState)
deriving DecidableEq

/-- The startup read (source lines 79-83): Object.assign of the decoded
record over the defaults. A saved record carries all five fields, so a
decodable record overwrites every default; an absent slot decodes to the
empty object and a corrupt slot throws into the swallowing catch, both
leaving the defaults. -/
def load : Storage → PanelState
  | .record s => s
  | _ => defaultState

/-- `saveState` (source lines 88-93): the whole state is serialised into
the one slot. -/
def save (s : PanelState) : Storage := .record s

/-- The panel's bounding client rect, in viewport coordinates. -/
structure Rect where
  left : Int
  top : Int
  width : Int
  height : Int
deriving DecidableEq

/-- The widget's world: the shared mutable state record, the lazily
created panel element with its rect, whether the panel is displayed, the
storage slot, and the viewport dimensions. -/
structure World where
  st : PanelState
  panel : Option Rect
  visible : Bool
  storage : Storage
  vw : Int
  vh : Int
deriving DecidableEq

/-- The pure clamp of `clampIntoViewport` (source lines 202-217):
nx = min(max(8, left), vw - width - 8) and the analogue for ny, with the
width and height passed through unchanged. -/
def clampIntoViewport (left top width height vw vh : Int) : Int × Int × Int × Int :=
  (min (max 8 left) (vw - width - 8), min (max 8 top) (vh - height - 8), width, height)

/-- `clampIntoViewport` as the widget runs it (source lines 202-217):
nothing without a panel; otherwise the clamped position is applied to
the panel, copied with the rect's dimensions into the state, and the
state is saved. -/
def clampVp (w : World) : World :=
  match w.panel with
  | none => w
  | some r =>
    let c := clampIntoViewport r.left r.top r.width r.height w.vw w.vh
    let st' : PanelState := { w.st with x := some c.1, y := some c.2.1, w := r.width, h := r.height }
    { w with panel := some ⟨c.1, c.2.1, r.width, r.height⟩, st := st', storage := save st' }

/-- `makePanel` (source lines 116-128): a no-op when the panel exists;
otherwise the element is created with width state.w || 360 and height
state.h || 520, positioned absolutely at (state.x, state.y) when both
are non-null and at the default corner anchor (CSS right:22px,
bottom:22px) otherwise. -/
def makePanel (w : World) : World :=
  match w.panel with
  | some _ => w
  | none =>
    let pw : Int := if w.st.w = 0 then 360 else w.st.w
    let ph : Int := if w.st.h = 0 then 520 else w.st.h
    let hasXY : Bool := w.st.x.isSome && w.st.y.isSome
    let l : Int := if hasXY then w.st.x.getD 0 else w.vw - 22 - pw
    let t : Int := if hasXY then w.st.y.getD 0 else w.vh - 22 - ph
    { w with panel := some ⟨l, t, pw, ph⟩ }

/-- `openPanel` (source lines 183-193): build the panel if needed, show
it, set the open flag and save. -/
def openPanelW (w : World) : World :=
  let w1 := makePanel w
  let st' : PanelState := { w1.st with openFlag := true }
  { w1 with st := st', storage := save st', visible := true }

/-- `closePanel` (source lines 195-200): clear the open flag, save, and
hide the panel when it exists; the panel is never constructed here. -/
def closePanelW (w : World) : World :=
  let st' : PanelState := { w.st with openFlag := false }
  { w with st := st', storage := save st', visible := false }

/-- `setPosition` of the public control surface (source lines 395-404):
with no panel it returns at once, moving and persisting nothing;
otherwise the panel is placed at the given coordinates, the state's
position updated and saved. -/
def setPositionW (x y : Int) (w : World) : World :=
  match w.panel with
  | none => w
  | some r =>
    let st' : PanelState := { w.st with x := some x, y := some y }
    { w with panel := some { r with left := x, top := y }, st := st', storage := save st' }

/-- One drag session (source lines 220-259), its moves aggregated into
one pointer delta: every move offsets the rect captured at the start,
and release runs clampIntoViewport (which also saves). A session with no
move is the zero delta. -/
def dragSessionW (dx dy : Int) (w : World) : World :=
  match w.panel with
  | none => w
  | some r =>
    clampVp { w with panel := some { r with left := r.left + dx, top := r.top + dy } }

/-- One resize session (source lines 262-302), its moves aggregated into
one pointer delta: every move sets width max(300, startWidth + dx) and
height max(380, startHeight + dy), and release runs clampIntoViewport. -/
def resizeSessionW (dx dy : Int) (w : World) : World :=
  match w.panel with
  | none => w
  | some r =>
    let r' : Rect := { r with width := max 300 (r.width + dx), height := max 380 (r.height + dy) }
    clampVp { w with panel := some r' }

/-- Startup (source lines 79-83 and 384-390): load the state from
storage, build the panel, then enter the open or the closed state as the
loaded flag says. -/
def initW (store : Storage) (vw vh : Int) : World :=
  let w0 : World := { st := load store, panel := none, visible := false,
                      storage := store, vw := vw, vh := vh }
  let w1 := makePanel w0
  if w1.st.openFlag then openPanelW w1 else closePanelW w1

/-- The user-driven operations that can follow startup: opening and
closing the panel, the public setPosition, a drag session, a resize
session, and a page reload (which re-runs startup on the current
storage). -/
inductive Op where
  | openP
  | closeP
  | setPos (x y : Int)
  | drag (dx dy : Int)
  | resize (dx dy : Int)
  | reload

/-- Apply one operation to the world. -/
def applyOp (o : Op) (w : World) : World :=
  match o with
  | .openP => openPanelW w
  | .closeP => closePanelW w
  | .setPos x y => setPositionW x y w
  | .drag dx dy => dragSessionW dx dy w
  | .resize dx dy => resizeSessionW dx dy w
  | .reload => initW w.storage w.vw w.vh

/-- Run a sequence of operations. -/
def runOps (ops : List Op) (w : World) : World :=
  ops.foldl (fun w o => applyOp o w) w

/-- The dimension floors: what the spec's invariant demands of a state. -/
def GoodSt (s : PanelState) : Prop := 300 ≤ s.w ∧ 380 ≤ s.h

/-- Every record present in storage satisfies the floors. -/
def GoodStore (store : Storage) : Prop :=
  ∀ s, store = .record s → GoodSt s

/-- The inductive invariant: the in-memory state, any stored record and
any existing panel rect all satisfy the dimension floors. -/
def GoodW (w : World) : Prop :=
  GoodSt w.st ∧ GoodStore w.storage ∧
  ∀ r, w.panel = some r → 300 ≤ r.width ∧ 380 ≤ r.height

/-- A world before the panel has ever been constructed. -/
def noPanelWorld : World := World.mk defaultState none false .absent 1000 1000

/-- A world whose panel exists at (10, 20) with the default size. -/
def somePanelWorld : World :=
  World.mk defaultState (some (Rect.mk 10 20 360 520)) true .absent 1000 1000

theorem lastConcat {α : Type} (l : List α) (a : α) : (l ++ [a]).getLast? = some a :=
  List.getLast?_concat l

theorem lastOfTwo {α : Type} (l : List α) (a c : α) : (l ++ [a, c]).getLast? = some c := by
  rw [show l ++ [a, c] = (l ++ [a]) ++ [c] by simp]
  exact lastConcat _ _

theorem eraseIdxMid {α : Type} (l : List α) (a b c : α) :
    (l ++ [a, b, c]).eraseIdx (l.length + 1) = l ++ [a, c] := by
  induction l with
  | nil => rfl
  | cons x xs ih => simp [List.eraseIdx, ih]

theorem countTypingAppend (l r : List Row) :
    countTyping (l ++ r) = countTyping l + countTyping r := by
  simp [countTyping, List.filter_append]

theorem escapeListSafe (l : List Char) : (escapeList l).all safeChar = true := by
  induction l with
  | nil => rfl
  | cons c cs ih =>
    simp only [escapeList, List.all_append, ih, Bool.and_true]
    unfold escapeChar
    split_ifs with h1 h2 h3 h4 h5
    · decide
    · decide
    · decide
    · decide
    · decide
    · simp [safeChar, h2, h3, h4, h5]

theorem escapeListCountNl (l : List Char) :
    (escapeList l).count '\n' = l.count '\n' := by
  induction l with
  | nil => rfl
  | cons c cs ih =>
    simp only [escapeList, List.count_append, ih, List.count_cons]
    unfold escapeChar
    split_ifs with h1 h2 h3 h4 h5 <;> simp_all [List.count_cons] <;> omega

theorem brListCountLt (l : List Char) (h : l.all safeChar = true) :
    (brList l).count '<' = l.count '\n' := by
  induction l with
  | nil => rfl
  | cons c cs ih =>
    simp only [List.all_cons, Bool.and_eq_true] at h
    have ih2 := ih h.2
    by_cases h1 : c = '\n'
    · subst h1
      simp [brList, brChar, List.count_append, List.count_cons, ih2]
    · have hc : c ≠ '<' := by
        intro hn
        simp [hn, safeChar] at h
      simp [brList, brChar, h1, List.count_append, List.count_cons, ih2, hc]

/-- Claim C3: renderBot checks the four payload shapes in the fixed
order recommendations, summary, answer, fallback, and renders only the
first matching shape: a payload carrying a recommendations array
together with summary and answer fields renders exactly what the same
payload without the summary and answer fields renders, namely the
shape-1 recommendations list; the later shapes are ignored even though
present. -/
theorem c3_shape_priority (recs : List JSValue) (fu sm an : JSValue) :
    renderBot (.obj [("recommendations", .arr recs), ("follow_up", fu),
        ("summary", sm), ("answer", an)])
      = renderBot (.obj [("recommendations", .arr recs), ("follow_up", fu)])
    ∧ renderBot (.obj [("recommendations", .arr recs), ("follow_up", fu),
        ("summary", sm), ("answer", an)])
      = renderShape1 recs fu :=
  ⟨rfl, rfl⟩

/-- Claim C10: dispatch selects by value truthiness, not key presence:
an empty recommendations array still selects shape 1 and renders an
empty list whatever summary and answer hold; an empty-string answer and
a null summary are falsy, fall through their shapes and, with nothing
later matching, render the fixed fallback message although the key is
present. -/
theorem c10_truthiness_dispatch :
    (∀ sm an : JSValue,
      renderBot (.obj [("recommendations", .arr []), ("summary", sm), ("answer", an)])
        = .ok "<ul></ul>")
    ∧ renderBot (.obj [("answer", .str "")]) = .ok fallbackMsg
    ∧ renderBot (.obj [("summary", .null)]) = .ok fallbackMsg :=
  ⟨fun _ _ => rfl, rfl, rfl⟩

/-- Claim C8, counterexample: a malformed sub-field does not always
degrade to "N/A" or empty output — a summary whose bullets field is the
number 5 makes renderBot raise a TypeError (the non-array is mapped
over), so the render fails instead of degrading. -/
theorem c8_counterexample :
    renderBot (.obj [("summary", .obj [("bullets", .num 5)])]) = .error () := rfl

/-- Claim C8 as amended: escapeHtml output never contains a raw markup
character from the four injectable ones; the appendYou bubble contains
exactly one tag-opening character per newline of the user text (all
other markup characters of the text arrive escaped); and a shape-1
recommendation with only a title renders the escaped title with the
author degraded to "N/A" and the reason to empty, while a missing title
renders the text "undefined" rather than "N/A"; wrong-typed sub-fields
can raise instead of degrading (see the counterexample). -/
theorem c8_escaping_and_degradation :
    (∀ s : String, isMarkupSafe (escapeHtml s) = true)
    ∧ (∀ t : String, countChar '<' (appendYouHtml t) = countChar '\n' t)
    ∧ (∀ title : String, renderRec (.obj [("title", .str title)])
        = .ok (String.join ["<li><b>", escapeHtml title, "</b> — ", "N/A",
            "<br><i>", "", "</i>", "", "</li>"]))
    ∧ renderRec (.obj [])
        = .ok (String.join ["<li><b>", "undefined", "</b> — ", "N/A",
            "<br><i>", "", "</i>", "", "</li>"]) := by
  refine ⟨fun s => escapeListSafe s.data, fun t => ?_, fun _ => rfl, rfl⟩
  show (brList (escapeList t.data)).count '<' = t.data.count '\n'
  rw [brListCountLt _ (escapeListSafe t.data), escapeListCountNl]

/-- Claim C1: every send cycle started with non-empty trimmed text ends,
whatever the network outcome (success with parsable body, success with
unparsable body, non-success status, or rejection), with the typing
placeholder row removed (the transcript holds exactly as many typing
rows as before the cycle), the send button re-enabled and the input
refocused — the dispatcher is back in the Idle state. -/
theorem c1_cycle_restores_idle (ui : UIState) (outcome : FetchOutcome)
    (h : jsTrim ui.inputValue ≠ "") :
    countTyping (onSend ui outcome).log = countTyping ui.log
    ∧ (onSend ui outcome).sendDisabled = false
    ∧ (onSend ui outcome).focused = true := by
  unfold onSend
  simp only [if_neg h, eraseIdxMid, countTypingAppend]
  refine ⟨?_, trivial, trivial⟩
  simp [countTyping, youRow, botRow]

theorem c1_cycle_restores_idle_witness :
    countTyping (onSend ⟨[], "hi", false, false⟩ .reject).log = countTyping ([] : List Row)
    ∧ (onSend ⟨[], "hi", false, false⟩ .reject).sendDisabled = false
    ∧ (onSend ⟨[], "hi", false, false⟩ .reject).focused = true :=
  c1_cycle_restores_idle ⟨[], "hi", false, false⟩ .reject (by decide)

/-- Claim C2: the three failure classes of a send produce distinct
results — a non-ok response appends the fixed server-error bot row, a
rejected fetch appends the fixed network-error bot row, and an ok
response whose body fails to parse leaves data null, is rendered as the
empty object through the shape-4 fallback of renderBot, and so appends
the fallback row, which is neither error message. -/
theorem c2_failure_classes (ui : UIState) (body : Option JSValue)
    (h : jsTrim ui.inputValue ≠ "") :
    (onSend ui (.resp false body)).log.getLast? = some (botRow serverErrMsg)
    ∧ (onSend ui .reject).log.getLast? = some (botRow networkErrMsg)
    ∧ (onSend ui (.resp true none)).log.getLast? = some (botRow fallbackMsg)
    ∧ renderBot (jsOr JSValue.null (.obj [])) = .ok fallbackMsg
    ∧ fallbackMsg ≠ serverErrMsg ∧ fallbackMsg ≠ networkErrMsg := by
  have e : renderBot (jsOr JSValue.null (.obj [])) = .ok fallbackMsg := rfl
  unfold onSend
  simp only [if_neg h, eraseIdxMid, e]
  refine ⟨lastOfTwo _ _ _, lastOfTwo _ _ _, ?_, trivial, by decide, by decide⟩
  exact lastOfTwo _ _ _

theorem c2_failure_classes_witness :
    (onSend ⟨[], "hi", false, false⟩ (.resp false none)).log.getLast?
        = some (botRow serverErrMsg)
    ∧ (onSend ⟨[], "hi", false, false⟩ .reject).log.getLast? = some (botRow networkErrMsg)
    ∧ (onSend ⟨[], "hi", false, false⟩ (.resp true none)).log.getLast?
        = some (botRow fallbackMsg)
    ∧ renderBot (jsOr JSValue.null (.obj [])) = .ok fallbackMsg
    ∧ fallbackMsg ≠ serverErrMsg ∧ fallbackMsg ≠ networkErrMsg :=
  c2_failure_classes ⟨[], "hi", false, false⟩ none (by decide)

/-- Claim C7: after a user scroll event the stickBottom flag is true
exactly when the scroll position is within 4px of the bottom
(scrollTop >= scrollHeight - clientHeight - 4); an append scrolls the
log to its (clamped) bottom when stickBottom holds at append time, and
leaves the scroll position untouched when it does not, so a user
scrolled away keeps their position across appends. -/
theorem c7_stick_bottom (l : LogView) (d : Int) :
    ((onLogScroll l).stickBottom = true ↔ l.scrollHeight - l.clientHeight - 4 ≤ l.scrollTop)
    ∧ (l.stickBottom = true →
        (appendScroll l d).scrollTop = max 0 (l.scrollHeight + d - l.clientHeight))
    ∧ (l.stickBottom = false → (appendScroll l d).scrollTop = l.scrollTop) := by
  refine ⟨by simp [onLogScroll], fun h => ?_, fun h => ?_⟩
  · simp [appendScroll, h]
  · simp [appendScroll, h]

theorem c7_stick_bottom_witness :
    (appendScroll ⟨100, 200, 50, true⟩ 10).scrollTop = max 0 (200 + 10 - 50)
    ∧ (appendScroll ⟨30, 200, 50, false⟩ 10).scrollTop = 30 :=
  ⟨(c7_stick_bottom ⟨100, 200, 50, true⟩ 10).2.1 rfl,
   (c7_stick_bottom ⟨30, 200, 50, false⟩ 10).2.2 rfl⟩

/-- Claim C4, counterexample: with a 100x100 viewport and a 200x200
panel at (50,50), the clamp places the panel at -108, a negative
position, not at the top-left 8px margin the claim asserts for a
viewport smaller than the panel. -/
theorem c4_counterexample :
    clampIntoViewport 50 50 200 200 100 100 = (-108, -108, 200, 200)
    ∧ (clampIntoViewport 50 50 200 200 100 100).1 < 0
    ∧ (clampIntoViewport 50 50 200 200 100 100).1 ≠ 8 := by decide

/-- Claim C4 as amended: the clamp computes
nx = min(max(8, left), vw - w - 8) (and the analogue for ny), leaving
width and height unchanged; whenever the viewport is large enough
(vw >= w + 16) the result satisfies 8 <= nx <= vw - w - 8 and the
analogous bound for ny; when the viewport is too small
(vw - w - 8 < 8) the panel is pinned at nx = vw - w - 8, i.e. its
right edge 8px inside the viewport, a possibly negative left — not at
the top-left 8px margin. -/
theorem c4_clamp_bounds (l t w h vw vh : Int) :
    ((clampIntoViewport l t w h vw vh).2.2 = (w, h))
    ∧ (w + 16 ≤ vw → 8 ≤ (clampIntoViewport l t w h vw vh).1
        ∧ (clampIntoViewport l t w h vw vh).1 ≤ vw - w - 8)
    ∧ (h + 16 ≤ vh → 8 ≤ (clampIntoViewport l t w h vw vh).2.1
        ∧ (clampIntoViewport l t w h vw vh).2.1 ≤ vh - h - 8)
    ∧ (vw - w - 8 < 8 → (clampIntoViewport l t w h vw vh).1 = vw - w - 8)
    ∧ (vh - h - 8 < 8 → (clampIntoViewport l t w h vw vh).2.1 = vh - h - 8) :=
  ⟨rfl, fun hc => ⟨le_min (le_max_left 8 l) (by omega), min_le_right _ _⟩,
    fun hc => ⟨le_min (le_max_left 8 t) (by omega), min_le_right _ _⟩,
    fun hc => min_eq_right (le_trans (by omega) (le_max_left 8 l)),
    fun hc => min_eq_right (le_trans (by omega) (le_max_left 8 t))⟩

theorem c4_clamp_bounds_witness :
    8 ≤ (clampIntoViewport 0 0 300 380 1000 1000).1
    ∧ (clampIntoViewport 0 0 300 380 1000 1000).1 ≤ 1000 - 300 - 8 :=
  (c4_clamp_bounds 0 0 300 380 1000 1000).2.1 (by decide)

/-- Claim C6: for every state meeting the dimension floors, load after
save returns the same state; an absent or undecodable stored record
makes load return exactly the defaults
(open false, x null, y null, w 360, h 520), and load is a total
function, so it never raises. -/
theorem c6_round_trip (s : PanelState) (hw : 300 ≤ s.w) (hh : 380 ≤ s.h) :
    load (save s) = s
    ∧ load .absent = defaultState
    ∧ load .corrupt = defaultState
    ∧ defaultState = ⟨false, none, none, 360, 520⟩ :=
  ⟨rfl, rfl, rfl, rfl⟩

theorem c6_round_trip_witness :
    load (save ⟨true, some 1, some 2, 300, 380⟩) = ⟨true, some 1, some 2, 300, 380⟩
    ∧ load .absent = defaultState
    ∧ load .corrupt = defaultState
    ∧ defaultState = ⟨false, none, none, 360, 520⟩ :=
  c6_round_trip ⟨true, some 1, some 2, 300, 380⟩ (by decide) (by decide)


theorem makePanel_st (w : World) : (makePanel w).st = w.st := by
  unfold makePanel
  split <;> rfl

theorem makePanel_storage (w : World) : (makePanel w).storage = w.storage := by
  unfold makePanel
  split <;> rfl

theorem makePanel_isSome (w : World) : (makePanel w).panel.isSome = true := by
  unfold makePanel
  split
  next r heq => simp [heq]
  next => rfl

theorem goodW_makePanel {w : World} (hw : GoodW w) : GoodW (makePanel w) := by
  obtain ⟨hst, hstore, hpanel⟩ := hw
  refine ⟨by rw [makePanel_st]; exact hst, by rw [makePanel_storage]; exact hstore, ?_⟩
  unfold makePanel
  split
  next => exact hpanel
  next =>
    intro r hr
    obtain ⟨h1, h2⟩ := hst
    injection hr with h3
    subst h3
    constructor <;> simp <;> split_ifs <;> omega

theorem goodW_clampVp {w : World} (hw : GoodW w) : GoodW (clampVp w) := by
  obtain ⟨hst, hstore, hpanel⟩ := hw
  unfold clampVp
  split
  next => exact ⟨hst, hstore, hpanel⟩
  next r heq =>
    have hr := hpanel r heq
    refine ⟨⟨hr.1, hr.2⟩, ?_, ?_⟩
    · intro s hs
      injection hs with h3
      subst h3
      exact ⟨hr.1, hr.2⟩
    · intro r2 hr2
      injection hr2 with h3
      subst h3
      exact ⟨hr.1, hr.2⟩

theorem goodW_open {w : World} (hw : GoodW w) : GoodW (openPanelW w) := by
  have h1 := goodW_makePanel hw
  obtain ⟨hst, hstore, hpanel⟩ := h1
  refine ⟨⟨hst.1, hst.2⟩, ?_, ?_⟩
  · intro s hs
    injection hs with h3
    subst h3
    exact ⟨hst.1, hst.2⟩
  · intro r hr
    exact hpanel r hr

theorem goodW_close {w : World} (hw : GoodW w) : GoodW (closePanelW w) := by
  obtain ⟨hst, hstore, hpanel⟩ := hw
  refine ⟨⟨hst.1, hst.2⟩, ?_, ?_⟩
  · intro s hs
    injection hs with h3
    subst h3
    exact ⟨hst.1, hst.2⟩
  · intro r hr
    exact hpanel r hr

theorem goodW_setPos {w : World} (x y : Int) (hw : GoodW w) : GoodW (setPositionW x y w) := by
  obtain ⟨hst, hstore, hpanel⟩ := hw
  unfold setPositionW
  split
  next => exact ⟨hst, hstore, hpanel⟩
  next r heq =>
    have hr := hpanel r heq
    refine ⟨⟨hst.1, hst.2⟩, ?_, ?_⟩
    · intro s hs
      injection hs with h3
      subst h3
      exact ⟨hst.1, hst.2⟩
    · intro r2 hr2
      injection hr2 with h3
      subst h3
      exact ⟨hr.1, hr.2⟩

theorem goodW_drag {w : World} (dx dy : Int) (hw : GoodW w) : GoodW (dragSessionW dx dy w) := by
  obtain ⟨hst, hstore, hpanel⟩ := hw
  unfold dragSessionW
  split
  next => exact ⟨hst, hstore, hpanel⟩
  next r heq =>
    have hr := hpanel r heq
    refine goodW_clampVp ⟨hst, hstore, ?_⟩
    intro r2 hr2
    injection hr2 with h3
    subst h3
    exact ⟨hr.1, hr.2⟩

theorem goodW_resize {w : World} (dx dy : Int) (hw : GoodW w) : GoodW (resizeSessionW dx dy w) := by
  obtain ⟨hst, hstore, hpanel⟩ := hw
  unfold resizeSessionW
  split
  next => exact ⟨hst, hstore, hpanel⟩
  next r heq =>
    refine goodW_clampVp ⟨hst, hstore, ?_⟩
    intro r2 hr2
    injection hr2 with h3
    subst h3
    exact ⟨le_max_left _ _, le_max_left _ _⟩

theorem goodSt_load {store : Storage} (hs : GoodStore store) : GoodSt (load store) := by
  cases store with
  | record s => exact hs s rfl
  | absent => exact ⟨by decide, by decide⟩
  | corrupt => exact ⟨by decide, by decide⟩

theorem goodW_init (store : Storage) (vw vh : Int) (hs : GoodStore store) :
    GoodW (initW store vw vh) := by
  have h0 : GoodW (World.mk (load store) none false store vw vh) := by
    refine ⟨goodSt_load hs, hs, ?_⟩
    intro r hr
    exact Option.noConfusion hr
  have h1 := goodW_makePanel h0
  unfold initW
  dsimp only
  split
  next => exact goodW_open h1
  next => exact goodW_close h1

theorem goodW_applyOp (o : Op) {w : World} (hw : GoodW w) : GoodW (applyOp o w) := by
  cases o with
  | openP => exact goodW_open hw
  | closeP => exact goodW_close hw
  | setPos x y => exact goodW_setPos x y hw
  | drag dx dy => exact goodW_drag dx dy hw
  | resize dx dy => exact goodW_resize dx dy hw
  | reload => exact goodW_init w.storage w.vw w.vh hw.2.1

theorem goodW_runOps (ops : List Op) {w : World} (hw : GoodW w) : GoodW (runOps ops w) := by
  induction ops generalizing w with
  | nil => exact hw
  | cons o os ih => exact ih (goodW_applyOp o hw)

/-- Claim C5: starting from any storage holding nothing, undecodable
text, or a record already meeting the floors (everything the widget
itself can leave behind), every record found in storage after startup
and any sequence of open, close, setPosition, drag, resize and reload
operations satisfies w >= 300 and h >= 380 — no reachable operation
sequence persists a state below the dimension floors. -/
theorem c5_persisted_floors (store : Storage) (vw vh : Int) (ops : List Op) (s : PanelState)
    (hstore : GoodStore store)
    (hs : (runOps ops (initW store vw vh)).storage = .record s) :
    300 ≤ s.w ∧ 380 ≤ s.h :=
  (goodW_runOps ops (goodW_init store vw vh hstore)).2.1 s hs

theorem c5_persisted_floors_witness :
    300 ≤ defaultState.w ∧ 380 ≤ defaultState.h :=
  c5_persisted_floors .absent 1000 1000 [] defaultState
    (fun _ h => Storage.noConfusion h) rfl

/-- Claim C9, counterexample: invoked while the panel does not exist,
setPosition(5, 6) neither constructs the panel nor persists the
position — its panel guard returns at once, leaving the world
unchanged — contradicting that all three public operations lazily
construct the panel and that setPosition always persists. -/
theorem c9_counterexample :
    setPositionW 5 6 noPanelWorld = noPanelWorld
    ∧ (setPositionW 5 6 noPanelWorld).panel = none
    ∧ (setPositionW 5 6 noPanelWorld).storage = .absent :=
  ⟨rfl, rfl, rfl⟩

/-- Claim C9 as amended: when the panel exists, setPosition moves it to
the given coordinates without a drag session and persists the new
position; all three public operations are safe before the panel has
been opened — but only open() lazily constructs the panel, while
setPosition is a silent no-op without a panel and close() merely
persists the closed flag without constructing anything. -/
theorem c9_control_surface :
    (∀ (w : World) (x y : Int) (r : Rect), w.panel = some r →
      (setPositionW x y w).panel = some (Rect.mk x y r.width r.height)
      ∧ (setPositionW x y w).storage
          = save (PanelState.mk w.st.openFlag (some x) (some y) w.st.w w.st.h))
    ∧ (∀ (w : World) (x y : Int), w.panel = none → setPositionW x y w = w)
    ∧ (∀ w : World, (openPanelW w).panel.isSome = true)
    ∧ (∀ w : World, w.panel = none →
        (closePanelW w).panel = none ∧ (closePanelW w).st.openFlag = false
        ∧ (closePanelW w).storage = save (PanelState.mk false w.st.x w.st.y w.st.w w.st.h)) := by
  refine ⟨fun w x y r hr => ?_, fun w x y hn => ?_, fun w => ?_, fun w hn => ?_⟩
  · unfold setPositionW
    rw [hr]
    exact ⟨rfl, rfl⟩
  · unfold setPositionW
    rw [hn]
  · unfold openPanelW
    exact makePanel_isSome w
  · exact ⟨hn, rfl, rfl⟩

theorem c9_control_surface_witness :
    (setPositionW 5 6 somePanelWorld).panel = some (Rect.mk 5 6 360 520)
    ∧ (setPositionW 5 6 somePanelWorld).storage
        = save (PanelState.mk false (some 5) (some 6) 360 520)
    ∧ setPositionW 7 8 noPanelWorld = noPanelWorld
    ∧ (openPanelW noPanelWorld).panel.isSome = true :=
  ⟨(c9_control_surface.1 somePanelWorld 5 6 (Rect.mk 10 20 360 520) rfl).1,
   (c9_control_surface.1 somePanelWorld 5 6 (Rect.mk 10 20 360 520) rfl).2,
   c9_control_surface.2.1 noPanelWorld 7 8 rfl,
   c9_control_surface.2.2.1 noPanelWorld⟩
